import Mathlib

/-!
Verification of the PSP-KillSwitch suspend-veto decision engine.

The development shallowly embeds the two C source files of the repository:

* `killswitch.c` (the push variant): global state `allow_sleep : bool` and
  `consecutive_sleep_blocks : int`, mutated by the sysevent handler
  `killswitchSysEventHandler` (suspend queries) and by the power callback
  `power_callback_handler` (switch press / release edges).  The spec's
  `veto_active` corresponds to the negation of `allow_sleep`, and
  `consecutive_denials` to `consecutive_sleep_blocks`.

* `killswitch_hold.c` (the hold variant): global `sleep_allowed : bool`,
  read by `suspend_event_handler` and written by the polling loop body of
  `main_thread`.  The loop body is embedded as the list of atomic actions
  (flag assignments and thread delays, in microseconds) that one iteration
  of the `while(run)` loop performs, so that the debounce timing can be
  stated over a virtual clock.

Machine integers are modelled as `Nat` (all the counters and bitmasks
involved stay far below 2^31, and the C code performs no arithmetic that
can overflow: the counter is bounded by 10 before every increment), except
for the hold variant's handler result, which is `Int` because the C code
returns -1 there.  A failed `sceCtrlPeekBufferPositive` call is an input
sample of `none`; a successful one carries the sampled button bitmask.
-/

/-! ### Constants from the C sources and the PSP SDK headers -/

/-- BUTTON_COMBO_MASK in killswitch.c is PSP_CTRL_HOME, whose SDK value is 0x010000. -/
def BUTTON_COMBO_MASK : Nat := 0x010000

/-- MAX_CONSECUTIVE_SLEEPS in killswitch.c. -/
def MAX_CONSECUTIVE_SLEEPS : Nat := 10

/-- SCE_ERROR_OK in killswitch.c. -/
def SCE_ERROR_OK : Nat := 0x0

/-- SCE_ERROR_BUSY in killswitch.c. -/
def SCE_ERROR_BUSY : Nat := 0x80000021

/-- SCE_SYSTEM_SUSPEND_EVENT_QUERY in killswitch.c. -/
def SCE_SYSTEM_SUSPEND_EVENT_QUERY : Nat := 0x00000100

/-- SCE_SYSTEM_SUSPEND_EVENT_CANCELLATION in killswitch.c. -/
def SCE_SYSTEM_SUSPEND_EVENT_CANCELLATION : Nat := 0x00000101

/-- SCE_SYSTEM_SUSPEND_EVENT_START in killswitch.c. -/
def SCE_SYSTEM_SUSPEND_EVENT_START : Nat := 0x00000102

/-- PSP_POWER_CB_POWER_SWITCH bit of the power callback flags (SDK value 0x80000000). -/
def PSP_POWER_CB_POWER_SWITCH : Nat := 0x80000000

/-- PSP_CTRL_HOLD button bit (SDK value 0x020000), tested by killswitch_hold.c. -/
def PSP_CTRL_HOLD : Nat := 0x020000

/-- ONE_MSEC in killswitch_hold.c: one millisecond in microseconds. -/
def ONE_MSEC : Nat := 1000

/-- ONE_SEC in killswitch_hold.c. -/
def ONE_SEC : Nat := 1000 * ONE_MSEC

/-- DISABLE_DURATION in killswitch_hold.c: sleep stays disabled this long after hold release. -/
def DISABLE_DURATION : Nat := ONE_SEC

/-! ### Push variant (killswitch.c): state and handlers -/

/-- The mutable globals of killswitch.c: `allow_sleep` (the spec's
`veto_active` is its negation) and `consecutive_sleep_blocks` (the spec's
`consecutive_denials`). -/
structure KSState where
  allow_sleep : Bool
  consecutive_sleep_blocks : Nat
deriving DecidableEq, Repr

/-- The initial values of the globals of killswitch.c:
`bool allow_sleep = true; int consecutive_sleep_blocks = 0;`. -/
def initState : KSState := { allow_sleep := true, consecutive_sleep_blocks := 0 }

/-- Embedding of `killswitchSysEventHandler` from killswitch.c.  Given the
event id and the current globals, it returns the updated globals and the
returned status code.  Mirrors the C control flow: only a
SCE_SYSTEM_SUSPEND_EVENT_QUERY arriving while `allow_sleep` is false touches
the state; the cancellation and start branches only print diagnostics. -/
def killswitchSysEventHandler (ev_id : Nat) (s : KSState) : KSState × Nat :=
  if ev_id = SCE_SYSTEM_SUSPEND_EVENT_QUERY ∧ s.allow_sleep = false then
    if s.consecutive_sleep_blocks < MAX_CONSECUTIVE_SLEEPS then
      ({ s with consecutive_sleep_blocks := s.consecutive_sleep_blocks + 1 }, SCE_ERROR_BUSY)
    else
      ({ s with allow_sleep := true }, SCE_ERROR_OK)
  else
    (s, SCE_ERROR_OK)

/-- Embedding of `power_callback_handler` from killswitch.c.  `pwrflags` is
the callback flag word; `sample` is the outcome of the
`sceCtrlPeekBufferPositive` call (`none` when the call fails, i.e. returns a
negative status; the sample is only consulted in the power-switch branch,
matching the C code).  Returns the updated globals and the handler's return
value (always 0 in the C code). -/
def power_callback_handler (pwrflags : Nat) (sample : Option Nat) (s : KSState) :
    KSState × Int :=
  let s1 :=
    if pwrflags &&& PSP_POWER_CB_POWER_SWITCH ≠ 0 then
      match sample with
      | some buttons =>
          if buttons &&& BUTTON_COMBO_MASK = BUTTON_COMBO_MASK then
            { s with allow_sleep := true }
          else
            { s with allow_sleep := false }
      | none => { s with allow_sleep := true }
    else
      { s with allow_sleep := true }
  let s2 :=
    if s1.allow_sleep then { s1 with consecutive_sleep_blocks := 0 } else s1
  (s2, 0)

/-- An event delivered to the push variant: either a sysevent (identified by
its id) routed to `killswitchSysEventHandler`, or a power callback (flag word
plus input-sample outcome) routed to `power_callback_handler`. -/
inductive KSEvent where
  | sysEvent (ev_id : Nat)
  | powerCallback (pwrflags : Nat) (sample : Option Nat)
deriving DecidableEq, Repr

/-- One state transition of the push variant: deliver one event to the
handler that receives it and keep the updated globals. -/
def ksStep (s : KSState) (e : KSEvent) : KSState :=
  match e with
  | KSEvent.sysEvent ev_id => (killswitchSysEventHandler ev_id s).1
  | KSEvent.powerCallback pwrflags sample => (power_callback_handler pwrflags sample s).1

/-- Deliver a sequence of events to the push variant, starting from the
module-start state. -/
def ksRun (s : KSState) (es : List KSEvent) : KSState :=
  es.foldl ksStep s

/-! ### Hold variant (killswitch_hold.c) -/

/-- Embedding of `suspend_event_handler` from killswitch_hold.c.  The C
function reads the global `sleep_allowed` and never writes it; the embedding
makes that explicit by returning the (unchanged) flag next to the status. -/
def suspend_event_handler (ev_id : Nat) (sleep_allowed : Bool) : Int × Bool :=
  if ev_id = 0x100 then
    (if sleep_allowed then 0 else -1, sleep_allowed)
  else
    (0, sleep_allowed)

/-- An atomic action performed by the polling loop of killswitch_hold.c:
either an assignment to the global `sleep_allowed`, or a
`sceKernelDelayThread` call of the given number of microseconds. -/
inductive HoldAct where
  | setFlag (b : Bool)
  | delay (usec : Nat)
deriving DecidableEq, Repr

/-- Embedding of one iteration of the `while(run)` loop body of
`main_thread` in killswitch_hold.c, as the list of atomic actions it
performs given the input sample (`none` on read failure) and the current
value of `sleep_allowed`.  Every iteration ends with the 50 ms poll delay. -/
def main_thread_body (sample : Option Nat) (sleep_allowed : Bool) : List HoldAct :=
  (match sample with
   | some buttons =>
       if buttons &&& PSP_CTRL_HOLD = PSP_CTRL_HOLD then
         [HoldAct.setFlag false]
       else
         if sleep_allowed = false then
           [HoldAct.delay DISABLE_DURATION, HoldAct.setFlag true]
         else
           []
   | none => [HoldAct.setFlag true])
  ++ [HoldAct.delay (50 * ONE_MSEC)]

/-- The value of `sleep_allowed` after executing a list of loop actions,
starting from the given flag value. -/
def execActs : List HoldAct → Bool → Bool
  | [], b => b
  | HoldAct.setFlag v :: rest, _ => execActs rest v
  | HoldAct.delay _ :: rest, b => execActs rest b

/-- The value of `sleep_allowed` observed `t` microseconds after a list of
loop actions starts executing (assignments are instantaneous; during a delay
the flag keeps its current value).  Past the end of the actions the final
value persists. -/
def flagAt : List HoldAct → Bool → Nat → Bool
  | [], b, _ => b
  | HoldAct.setFlag v :: rest, _, t => flagAt rest v t
  | HoldAct.delay d :: rest, b, t => if t < d then b else flagAt rest b (t - d)

/-- Deliver `n` consecutive suspend queries (event id 0x100) to the hold
variant's handler, collecting the returned statuses and threading the flag. -/
def iterate_queries : Nat → Bool → List Int × Bool
  | 0, b => ([], b)
  | n + 1, b =>
      let r := suspend_event_handler 0x100 b
      let rest := iterate_queries n r.2
      (r.1 :: rest.1, rest.2)

/-! ### Helper lemmas -/

/-- The power callback either ends in the fully-allowing state (flag true,
counter 0) or in the vetoing state with the counter untouched: the final
`if(allow_sleep) consecutive_sleep_blocks = 0;` of the C handler zeroes the
counter exactly when the handler ends with sleep allowed. -/
theorem power_callback_cases (pwrflags : Nat) (sample : Option Nat) (s : KSState) :
    (power_callback_handler pwrflags sample s).1 =
      { allow_sleep := true, consecutive_sleep_blocks := 0 } ∨
    (power_callback_handler pwrflags sample s).1 =
      { allow_sleep := false, consecutive_sleep_blocks := s.consecutive_sleep_blocks } := by
  unfold power_callback_handler
  by_cases h1 : pwrflags &&& PSP_POWER_CB_POWER_SWITCH ≠ 0
  · cases sample with
    | some buttons =>
        by_cases h2 : buttons &&& BUTTON_COMBO_MASK = BUTTON_COMBO_MASK
        · left; simp [h1, h2]
        · right; simp [h1, h2]
    | none => left; simp [h1]
  · left; simp [h1]

/-- One step of the push variant preserves the counter ceiling: the sysevent
handler only increments the counter when it is strictly below the ceiling,
and the power callback either zeroes it or leaves it unchanged. -/
theorem ksStep_counter_le (s : KSState) (e : KSEvent)
    (h : s.consecutive_sleep_blocks ≤ MAX_CONSECUTIVE_SLEEPS) :
    (ksStep s e).consecutive_sleep_blocks ≤ MAX_CONSECUTIVE_SLEEPS := by
  cases e with
  | sysEvent ev_id =>
      show (killswitchSysEventHandler ev_id s).1.consecutive_sleep_blocks ≤ _
      unfold killswitchSysEventHandler
      split
      · split
        · next hlt => exact hlt
        · exact h
      · exact h
  | powerCallback pwrflags sample =>
      show (power_callback_handler pwrflags sample s).1.consecutive_sleep_blocks ≤ _
      rcases power_callback_cases pwrflags sample s with hc | hc <;> rw [hc]
      · exact Nat.zero_le _
      · exact h

/-! ### Claim theorems -/

/-- C1 (counterexample): delivering a SUSPEND_QUERY in the reachable state
with veto active and the counter at MAX_CONSECUTIVE_SLEEPS does NOT reset
consecutive_sleep_blocks to 0, contradicting the claim that the handler
"resets consecutive_denials to 0" in the ceiling branch; the C code only
sets allow_sleep = true there and leaves the counter at 10. -/
theorem C1_counterexample :
    ¬ (killswitchSysEventHandler SCE_SYSTEM_SUSPEND_EVENT_QUERY
        ⟨false, 10⟩).1.consecutive_sleep_blocks = 0 := by
  decide

/-- C1 (amended): for every SUSPEND_QUERY delivered while veto_active is
true (allow_sleep false) and consecutive_denials has reached
MAX_CONSECUTIVE_SLEEPS, the handler sets veto_active to false (allow_sleep
true) and returns ALLOW (SCE_ERROR_OK); it leaves consecutive_denials
unchanged — the counter is reset to 0 only later, by a power callback that
ends with sleep allowed. -/
theorem C1_ceiling_forces_allow (s : KSState)
    (h1 : s.allow_sleep = false)
    (h2 : MAX_CONSECUTIVE_SLEEPS ≤ s.consecutive_sleep_blocks) :
    killswitchSysEventHandler SCE_SYSTEM_SUSPEND_EVENT_QUERY s =
      ({ allow_sleep := true, consecutive_sleep_blocks := s.consecutive_sleep_blocks },
        SCE_ERROR_OK) := by
  unfold killswitchSysEventHandler
  rw [if_pos ⟨rfl, h1⟩, if_neg (Nat.not_lt.mpr h2)]

/-- C1 witness: the amended ceiling behaviour evaluated at the concrete
state with veto active and counter 10. -/
theorem C1_ceiling_forces_allow_witness :
    killswitchSysEventHandler SCE_SYSTEM_SUSPEND_EVENT_QUERY ⟨false, 10⟩ =
      (⟨true, 10⟩, SCE_ERROR_OK) :=
  C1_ceiling_forces_allow ⟨false, 10⟩ rfl (by decide)

/-- C2: for every SUSPEND_QUERY delivered while veto_active is true
(allow_sleep false) and consecutive_denials is strictly below
MAX_CONSECUTIVE_SLEEPS, the handler increments consecutive_denials by
exactly one and returns DENY (SCE_ERROR_BUSY). -/
theorem C2_deny_and_increment (s : KSState)
    (h1 : s.allow_sleep = false)
    (h2 : s.consecutive_sleep_blocks < MAX_CONSECUTIVE_SLEEPS) :
    killswitchSysEventHandler SCE_SYSTEM_SUSPEND_EVENT_QUERY s =
      ({ s with consecutive_sleep_blocks := s.consecutive_sleep_blocks + 1 },
        SCE_ERROR_BUSY) := by
  unfold killswitchSysEventHandler
  rw [if_pos ⟨rfl, h1⟩, if_pos h2]

/-- C2 witness: the deny-and-increment behaviour evaluated at the concrete
state with veto active and counter 0. -/
theorem C2_deny_and_increment_witness :
    killswitchSysEventHandler SCE_SYSTEM_SUSPEND_EVENT_QUERY ⟨false, 0⟩ =
      (⟨false, 1⟩, SCE_ERROR_BUSY) :=
  C2_deny_and_increment ⟨false, 0⟩ rfl (by decide)

/-- C3 (counterexample): the ceiling transition of the sysevent handler is a
transition that sets veto_active to false (it starts with allow_sleep false
and ends with allow_sleep true) but does NOT reset consecutive_denials to 0
in that same transition, refuting the second half of the claimed invariant. -/
theorem C3_counterexample :
    ((⟨false, 10⟩ : KSState).allow_sleep = false) ∧
    (ksStep ⟨false, 10⟩ (KSEvent.sysEvent SCE_SYSTEM_SUSPEND_EVENT_QUERY)).allow_sleep = true ∧
    ¬ (ksStep ⟨false, 10⟩
        (KSEvent.sysEvent SCE_SYSTEM_SUSPEND_EVENT_QUERY)).consecutive_sleep_blocks = 0 := by
  decide

/-- C3 (amended): consecutive_denials is only ever incremented in a
transition where veto_active is true (allow_sleep false), and every POWER
CALLBACK transition that ends with veto_active false ends with
consecutive_denials 0; the sysevent handler's ceiling transition, however,
sets veto_active to false while leaving the counter at its old value (see
the counterexample). -/
theorem C3_invariant_amended :
    (∀ (s : KSState) (e : KSEvent),
      s.consecutive_sleep_blocks < (ksStep s e).consecutive_sleep_blocks →
      s.allow_sleep = false) ∧
    (∀ (pwrflags : Nat) (sample : Option Nat) (s : KSState),
      ((power_callback_handler pwrflags sample s).1).allow_sleep = true →
      ((power_callback_handler pwrflags sample s).1).consecutive_sleep_blocks = 0) := by
  constructor
  · intro s e h
    cases e with
    | sysEvent ev_id =>
        by_cases hc : ev_id = SCE_SYSTEM_SUSPEND_EVENT_QUERY ∧ s.allow_sleep = false
        · exact hc.2
        · exfalso
          have heq : ksStep s (KSEvent.sysEvent ev_id) = s := by
            show (killswitchSysEventHandler ev_id s).1 = s
            unfold killswitchSysEventHandler
            rw [if_neg hc]
          rw [heq] at h
          exact Nat.lt_irrefl _ h
    | powerCallback pwrflags sample =>
        exfalso
        have hstep : ksStep s (KSEvent.powerCallback pwrflags sample) =
            (power_callback_handler pwrflags sample s).1 := rfl
        rcases power_callback_cases pwrflags sample s with hc | hc <;>
          rw [hstep, hc] at h
        · exact Nat.not_lt_zero _ h
        · exact Nat.lt_irrefl _ h
  · intro pwrflags sample s h
    rcases power_callback_cases pwrflags sample s with hc | hc
    · rw [hc]
    · rw [hc] at h
      exact absurd h (by simp)

/-- C3 witness: the amended invariant evaluated at concrete inputs — the
increment-only-under-veto half at the query transition from state
(false, 3), and the callback-reset half at a release callback. -/
theorem C3_invariant_amended_witness :
    (⟨false, 3⟩ : KSState).allow_sleep = false ∧
    ((power_callback_handler 0 none ⟨false, 3⟩).1).consecutive_sleep_blocks = 0 :=
  ⟨C3_invariant_amended.1 ⟨false, 3⟩ (KSEvent.sysEvent SCE_SYSTEM_SUSPEND_EVENT_QUERY)
      (by decide),
   C3_invariant_amended.2 0 none ⟨false, 3⟩ (by decide)⟩

/-- C4 (counterexample): a reachable run (power-switch press without the
combo, then eleven suspend queries) ends with veto_active false and counter
10; the next SUSPEND_QUERY returns ALLOW but leaves consecutive_denials at
10, refuting the claim that such a query "resets consecutive_denials to 0". -/
theorem C4_counterexample :
    (ksRun initState (KSEvent.powerCallback 0x80000000 (some 0) ::
        List.replicate 11 (KSEvent.sysEvent 0x100))).allow_sleep = true ∧
    (killswitchSysEventHandler SCE_SYSTEM_SUSPEND_EVENT_QUERY
        (ksRun initState (KSEvent.powerCallback 0x80000000 (some 0) ::
          List.replicate 11 (KSEvent.sysEvent 0x100)))).2 = SCE_ERROR_OK ∧
    ¬ (killswitchSysEventHandler SCE_SYSTEM_SUSPEND_EVENT_QUERY
        (ksRun initState (KSEvent.powerCallback 0x80000000 (some 0) ::
          List.replicate 11 (KSEvent.sysEvent 0x100)))).1.consecutive_sleep_blocks = 0 := by
  decide

/-- C4 (amended): for every SUSPEND_QUERY delivered while veto_active is
false (allow_sleep true), the handler returns ALLOW and leaves the whole
state — including consecutive_denials — unchanged; the reset of the counter
to 0 is performed by the power callback, not by the query handler. -/
theorem C4_allow_when_not_vetoed (s : KSState) (h : s.allow_sleep = true) :
    killswitchSysEventHandler SCE_SYSTEM_SUSPEND_EVENT_QUERY s = (s, SCE_ERROR_OK) := by
  unfold killswitchSysEventHandler
  rw [if_neg (by simp [h])]

/-- C4 witness: the amended allow behaviour evaluated at the initial state. -/
theorem C4_allow_when_not_vetoed_witness :
    killswitchSysEventHandler SCE_SYSTEM_SUSPEND_EVENT_QUERY initState =
      (initState, SCE_ERROR_OK) :=
  C4_allow_when_not_vetoed initState rfl

/-- C5: in every state reachable from module start under every sequence of
events (suspend queries, switch presses and releases with arbitrary flag
words and input samples), consecutive_denials never exceeds
MAX_CONSECUTIVE_SLEEPS = 10. -/
theorem C5_counter_never_exceeds_ceiling (es : List KSEvent) :
    (ksRun initState es).consecutive_sleep_blocks ≤ MAX_CONSECUTIVE_SLEEPS := by
  have key : ∀ (l : List KSEvent) (s : KSState),
      s.consecutive_sleep_blocks ≤ MAX_CONSECUTIVE_SLEEPS →
      (l.foldl ksStep s).consecutive_sleep_blocks ≤ MAX_CONSECUTIVE_SLEEPS := by
    intro l
    induction l with
    | nil => intro s h; exact h
    | cons e t ih => intro s h; exact ih (ksStep s e) (ksStep_counter_le s e h)
  exact key es initState (by decide)

/-- C6: in both variants an input-read failure (sceCtrlPeekBufferPositive
returning a negative status, modelled as a `none` sample) drives the flag to
the allowing state: the push variant's power callback ends with allow_sleep
true and the following SUSPEND_QUERY returns SCE_ERROR_OK, and the hold
variant's loop iteration ends with sleep_allowed true and its handler then
returns 0 (allow). -/
theorem C6_input_read_failure_allows :
    (∀ (pwrflags : Nat) (s : KSState), pwrflags &&& PSP_POWER_CB_POWER_SWITCH ≠ 0 →
      ((power_callback_handler pwrflags none s).1).allow_sleep = true ∧
      (killswitchSysEventHandler SCE_SYSTEM_SUSPEND_EVENT_QUERY
        ((power_callback_handler pwrflags none s).1)).2 = SCE_ERROR_OK) ∧
    (∀ b : Bool, execActs (main_thread_body none b) b = true ∧
      (suspend_event_handler 0x100 (execActs (main_thread_body none b) b)).1 = 0) := by
  constructor
  · intro pwrflags s hf
    have hres : (power_callback_handler pwrflags none s).1 =
        { allow_sleep := true, consecutive_sleep_blocks := 0 } := by
      unfold power_callback_handler
      simp [hf]
    rw [hres]
    exact ⟨rfl, rfl⟩
  · intro b
    exact ⟨rfl, rfl⟩

/-- C6 witness: the failure path evaluated at a power-switch press with a
failed read from a vetoing state, and at a failed read of the hold loop. -/
theorem C6_input_read_failure_allows_witness :
    ((power_callback_handler 0x80000000 none ⟨false, 5⟩).1).allow_sleep = true ∧
    execActs (main_thread_body none false) false = true :=
  ⟨(C6_input_read_failure_allows.1 0x80000000 ⟨false, 5⟩ (by decide)).1,
   (C6_input_read_failure_allows.2 false).1⟩

/-- C7: on a power callback with the PSP_POWER_CB_POWER_SWITCH bit set and a
successful input sample, the handler ends with veto_active false
(allow_sleep true) when the override combo is fully engaged in the sampled
buttons, and with veto_active true (allow_sleep false) otherwise. -/
theorem C7_press_samples_combo (pwrflags buttons : Nat) (s : KSState)
    (hf : pwrflags &&& PSP_POWER_CB_POWER_SWITCH ≠ 0) :
    (buttons &&& BUTTON_COMBO_MASK = BUTTON_COMBO_MASK →
      ((power_callback_handler pwrflags (some buttons) s).1).allow_sleep = true) ∧
    (buttons &&& BUTTON_COMBO_MASK ≠ BUTTON_COMBO_MASK →
      ((power_callback_handler pwrflags (some buttons) s).1).allow_sleep = false) := by
  constructor
  · intro hb
    unfold power_callback_handler
    simp [hf, hb]
  · intro hb
    unfold power_callback_handler
    simp [hf, hb]

/-- C7 witness: a press with HOME held allows sleep, a press with no
buttons held vetoes it. -/
theorem C7_press_samples_combo_witness :
    ((power_callback_handler 0x80000000 (some 0x010000) initState).1).allow_sleep = true ∧
    ((power_callback_handler 0x80000000 (some 0) initState).1).allow_sleep = false :=
  ⟨(C7_press_samples_combo 0x80000000 0x010000 initState (by decide)).1 (by decide),
   (C7_press_samples_combo 0x80000000 0 initState (by decide)).2 (by decide)⟩

/-- C8: every power callback without the PSP_POWER_CB_POWER_SWITCH bit
(physical release or a non-physical suspend source) ends with veto_active
false and consecutive_denials 0, whatever the previous state and whatever
the input sample would have been, and a subsequent SUSPEND_QUERY on that
state returns ALLOW with the counter still 0. -/
theorem C8_release_allows_and_resets (pwrflags : Nat) (sample : Option Nat) (s : KSState)
    (hf : pwrflags &&& PSP_POWER_CB_POWER_SWITCH = 0) :
    (power_callback_handler pwrflags sample s).1 =
      { allow_sleep := true, consecutive_sleep_blocks := 0 } ∧
    killswitchSysEventHandler SCE_SYSTEM_SUSPEND_EVENT_QUERY
        ((power_callback_handler pwrflags sample s).1) =
      ({ allow_sleep := true, consecutive_sleep_blocks := 0 }, SCE_ERROR_OK) := by
  have hres : (power_callback_handler pwrflags sample s).1 =
      { allow_sleep := true, consecutive_sleep_blocks := 0 } := by
    unfold power_callback_handler
    simp [hf]
  exact ⟨hres, by rw [hres]; decide⟩

/-- C8 witness: a release callback from a vetoing state with the counter at
7 resets both fields. -/
theorem C8_release_allows_and_resets_witness :
    (power_callback_handler 0 none ⟨false, 7⟩).1 =
      { allow_sleep := true, consecutive_sleep_blocks := 0 } :=
  (C8_release_allows_and_resets 0 none ⟨false, 7⟩ (by decide)).1

/-- C9: in the hold variant, an iteration that samples the hold switch as
engaged ends with sleep_allowed false and the suspend handler then denies
(-1); after a sample showing the switch disengaged while sleep was
disallowed, the flag stays false at every instant strictly before
DISABLE_DURATION (one second) into the iteration, the iteration ends with
sleep_allowed true, and the suspend handler then allows (0). -/
theorem C9_hold_debounce :
    (∀ (buttons : Nat) (b : Bool), buttons &&& PSP_CTRL_HOLD = PSP_CTRL_HOLD →
      execActs (main_thread_body (some buttons) b) b = false ∧
      (suspend_event_handler 0x100 false).1 = -1) ∧
    (∀ (buttons t : Nat), buttons &&& PSP_CTRL_HOLD ≠ PSP_CTRL_HOLD → t < DISABLE_DURATION →
      flagAt (main_thread_body (some buttons) false) false t = false) ∧
    (∀ buttons : Nat, buttons &&& PSP_CTRL_HOLD ≠ PSP_CTRL_HOLD →
      execActs (main_thread_body (some buttons) false) false = true ∧
      (suspend_event_handler 0x100 true).1 = 0) := by
  refine ⟨?_, ?_, ?_⟩
  · intro buttons b hb
    constructor
    · simp [main_thread_body, execActs, hb]
    · rfl
  · intro buttons t hb ht
    simp [main_thread_body, flagAt, hb, ht]
  · intro buttons hb
    constructor
    · simp [main_thread_body, execActs, hb]
    · rfl

/-- C9 witness: the debounce behaviour evaluated with the hold bit engaged,
and with it disengaged at the instant just before the settle duration ends. -/
theorem C9_hold_debounce_witness :
    execActs (main_thread_body (some 0x020000) true) true = false ∧
    flagAt (main_thread_body (some 0) false) false 999999 = false ∧
    execActs (main_thread_body (some 0) false) false = true :=
  ⟨(C9_hold_debounce.1 0x020000 true (by decide)).1,
   C9_hold_debounce.2.1 0 999999 (by decide) (by decide),
   (C9_hold_debounce.2.2 0 (by decide)).1⟩

/-- C10: the hold variant's suspend_event_handler never modifies
sleep_allowed for any event id; on a query (0x100) it returns -1 exactly
when sleep_allowed is false and 0 when it is true, on any other event it
returns 0; and an arbitrarily long sequence of queries while sleep_allowed
is false is denied at every step with the flag still false — there is no
denial ceiling. -/
theorem C10_handler_is_pure :
    (∀ (ev_id : Nat) (b : Bool), (suspend_event_handler ev_id b).2 = b) ∧
    (∀ b : Bool, (suspend_event_handler 0x100 b).1 = if b then 0 else -1) ∧
    (∀ (ev_id : Nat) (b : Bool), ev_id ≠ 0x100 → (suspend_event_handler ev_id b).1 = 0) ∧
    (∀ n : Nat, iterate_queries n false = (List.replicate n (-1), false)) := by
  refine ⟨?_, ?_, ?_, ?_⟩
  · intro ev_id b
    unfold suspend_event_handler
    split <;> rfl
  · intro b
    rfl
  · intro ev_id b h
    unfold suspend_event_handler
    rw [if_neg h]
  · intro n
    induction n with
    | zero => rfl
    | succ k ih => simp [iterate_queries, suspend_event_handler, ih, List.replicate]

/-- C10 witness: the handler evaluated at a non-query event and at a query
with the flag false. -/
theorem C10_handler_is_pure_witness :
    (suspend_event_handler 0x101 true).1 = 0 ∧
    (suspend_event_handler 0x100 false).2 = false :=
  ⟨C10_handler_is_pure.2.2.1 0x101 true (by decide),
   C10_handler_is_pure.1 0x100 false⟩
